import Mathlib

/-!
Verification of the agent-orchestration engine: provider strategies
(fallback, parallel, race), the debate engine, the evaluator quality gate,
the checkpoint store, and the execute retry loop. Definitions are shallow
embeddings of the JavaScript source; strings are modelled as lists of
characters (JS string indices are code-unit indices, which coincide with
character indices on the ASCII inputs exercised here).
-/

/-- A single apostrophe character, used to build string literals that
contain one. -/
def apostr : String := String.singleton (Char.ofNat 39)

/-- JS String.prototype.trim, modelled as dropping whitespace from both
ends of the character list. -/
def jsTrim (s : String) : String :=
  ⟨((s.data.dropWhile Char.isWhitespace).reverse.dropWhile Char.isWhitespace).reverse⟩

/-- Index of the first occurrence of a pattern in a character list,
starting the count at i. Mirrors JS String.prototype.indexOf. -/
def idxOfAux (pat : List Char) : List Char → Nat → Option Nat
  | [], i => if pat.isEmpty then some i else none
  | c :: t, i => if pat.isPrefixOf (c :: t) then some i else idxOfAux pat t (i + 1)

/-- JS String.prototype.indexOf: some index of the first occurrence, or
none for the -1 result. -/
def strIndexOf (s pat : String) : Option Nat :=
  idxOfAux pat.data s.data 0

/-- JS String.prototype.includes. -/
def sIncludes (s pat : String) : Bool :=
  (strIndexOf s pat).isSome

/-- JS String.prototype.substring with two arguments: clamps both indices
to the string length and swaps them when given out of order. -/
def jsSubstring (s : String) (a b : Nat) : String :=
  let len := s.data.length
  let a' := min a len
  let b' := min b len
  ⟨(s.data.take (max a' b')).drop (min a' b')⟩

/-- JS String.prototype.substring with one argument. -/
def jsSubstringFrom (s : String) (a : Nat) : String :=
  jsSubstring s a s.data.length

/-!
## Invocation results and output quality heuristics
Source: src/src/ai-provider/provider.js
-/

/-- The uniform invocation-result record produced by every strategy
(output, completedNormally, exitCode, numTurns, rateLimited, provider,
duration). -/
structure AIResult where
  output : String
  completedNormally : Bool
  exitCode : Int
  numTurns : Option Int
  rateLimited : Bool
  provider : String
  duration : Nat
deriving DecidableEq, Repr

/-- First rate-limit signature text. -/
def rateLimitSig1 : String := "You" ++ apostr ++ "ve hit your limit"

/-- Second rate-limit signature text. -/
def rateLimitSig2 : String := "resets "

/-- provider.js isRateLimited: text-pattern match for rate-limit
signatures. The JS null guard is absorbed by total strings. -/
def isRateLimited (text : String) : Bool :=
  sIncludes text rateLimitSig1 || sIncludes text rateLimitSig2

/-- provider.js isGarbageOutput: empty, rate-limited, or under 50
characters after trimming. -/
def isGarbageOutput (text : String) : Bool :=
  if (jsTrim text).length == 0 then true
  else if isRateLimited text then true
  else if (jsTrim text).length < 50 then true
  else false

/-- The JS reduce over a non-empty list with
fn a b = (a.output.length greater than b.output.length) ? a : b. -/
def reduceMaxLen : AIResult → List AIResult → AIResult
  | a, [] => a
  | a, b :: t => reduceMaxLen (if a.output.length > b.output.length then a else b) t

/-- provider.js pickBestOutput: filter non-garbage results; prefer
structured output (FILES CHANGED, SUMMARY or RISKS markers, longest
wins), then results that completed normally, then the longest non-garbage
output; when nothing is valid, the first result with any output, else the
first result, else null. -/
def pickBestOutput (results : List AIResult) : Option AIResult :=
  let valid := results.filter (fun r => r.output != "" && !isGarbageOutput r.output)
  match valid with
  | [] =>
    match results.find? (fun r => r.output != "") with
    | some r => some r
    | none => results.head?
  | v :: vs =>
    let structured := (v :: vs).filter (fun r =>
      sIncludes r.output "FILES CHANGED" || sIncludes r.output "SUMMARY" ||
        sIncludes r.output "RISKS")
    match structured with
    | s :: ss => some (reduceMaxLen s ss)
    | [] =>
      match (v :: vs).filter (fun r => r.completedNormally) with
      | c :: cs => some (reduceMaxLen c cs)
      | [] => some (reduceMaxLen v vs)

/-!
## Provider invocation and the fallback / parallel strategies
Source: src/unnamed/part_004 (fallback strategy run and runProvider,
parallel strategy run and runProvider)
-/

/-- The adapter output-parse record: output text, completedNormally flag
and turn count. -/
structure ParsedOutput where
  output : String
  completedNormally : Bool
  numTurns : Option Int
deriving DecidableEq, Repr

/-- The raw record resolved by the spawn engine: stdout, stderr, exit
code and duration. -/
structure RawSpawnResult where
  stdout : String
  stderr : String
  exitCode : Int
  duration : Nat
deriving DecidableEq, Repr

/-- A provider adapter, restricted to the members the strategies consume
on a completed spawn: parseStreamOutput and the adapter rate-limit
detector. getCommand and buildArgs only feed the spawn call, which is
abstracted into SpawnOutcome. -/
structure Adapter where
  parseStreamOutput : String → Int → ParsedOutput
  isRateLimited : String → Bool

/-- Outcome of awaiting the spawn call: it either threw (timeout or
spawn error) or resolved with a raw result. -/
inductive SpawnOutcome
  | threw
  | ok (raw : RawSpawnResult)

/-- The failure-shaped result built in the catch branch of runProvider. -/
def failureResult (providerName : String) : AIResult :=
  { output := "", completedNormally := false, exitCode := -1, numTurns := none,
    rateLimited := false, provider := providerName, duration := 0 }

namespace FallbackStrategy

/-- runProvider of the fallback strategy: spawn, parse, assemble the
result record; a throw is absorbed into the failure-shaped result. -/
def runProvider (providerName : String) (adapter : Adapter) (outcome : SpawnOutcome) :
    AIResult :=
  match outcome with
  | .threw => failureResult providerName
  | .ok raw =>
    let parsed := adapter.parseStreamOutput raw.stdout raw.exitCode
    { output := parsed.output, completedNormally := parsed.completedNormally,
      exitCode := raw.exitCode, numTurns := parsed.numTurns,
      rateLimited := isRateLimited parsed.output || adapter.isRateLimited parsed.output,
      provider := providerName, duration := raw.duration }

/-- The fallback strategy run: run the primary; return it when it
completed normally, is not rate-limited and its output is non-garbage;
otherwise run the configured fallback and return its result, or return
the failing primary result when no fallback is configured.
fallbackConfigured models the fallbackName and adapter presence check. -/
def run (primaryName fallbackName : String) (primaryAdapter fallbackAdapter : Adapter)
    (fallbackConfigured : Bool) (primaryOutcome fallbackOutcome : SpawnOutcome) : AIResult :=
  let primaryResult := runProvider primaryName primaryAdapter primaryOutcome
  if primaryResult.completedNormally && !primaryResult.rateLimited &&
      !isGarbageOutput primaryResult.output then
    primaryResult
  else if fallbackConfigured then
    runProvider fallbackName fallbackAdapter fallbackOutcome
  else
    primaryResult

end FallbackStrategy

namespace ParallelStrategy

/-- runProvider of the parallel strategy; textually identical to the
fallback version in the source. -/
def runProvider (providerName : String) (adapter : Adapter) (outcome : SpawnOutcome) :
    AIResult :=
  match outcome with
  | .threw => failureResult providerName
  | .ok raw =>
    let parsed := adapter.parseStreamOutput raw.stdout raw.exitCode
    { output := parsed.output, completedNormally := parsed.completedNormally,
      exitCode := raw.exitCode, numTurns := parsed.numTurns,
      rateLimited := isRateLimited parsed.output || adapter.isRateLimited parsed.output,
      provider := providerName, duration := raw.duration }

/-- The winner-selection tail of the parallel strategy run, from the
Promise.allSettled join onward: oA and oB are the settled states of the
two runProvider promises (none models a rejected promise), results keeps
fulfilled values in order, and in write-capable mode the primary result
is returned instead of a secondary winner when the first fulfilled
result is non-garbage. The working-directory duplication and its removal
are filesystem effects outside this record-level model. -/
def run (nameA nameB : String) (oA oB : Option AIResult) (isWriteMode : Bool) :
    Except String AIResult :=
  let results := oA.toList ++ oB.toList
  match results with
  | [] => .error "Both providers failed in parallel strategy"
  | r0 :: _ =>
    match pickBestOutput results with
    | none => .error "Both providers failed in parallel strategy"
    | some best =>
      if isWriteMode && best.provider == nameB && !isGarbageOutput r0.output then
        .ok r0
      else
        .ok best

end ParallelStrategy

/-!
## Race strategy
Source: src/unnamed/part_005 (race strategy run)
-/

namespace RaceStrategy

/-- The error message of the race strategy reject. -/
def raceFailMsg : String := "Both providers failed in race strategy"

/-- The zero-length failing placeholder pushed by tryReject. -/
def racePlaceholder (providerName : String) : AIResult :=
  { output := "", completedNormally := false, exitCode := -1, numTurns := none,
    rateLimited := false, provider := providerName, duration := 0 }

/-- One settlement event of a raced provider promise: the promise either
resolved with a result or rejected. -/
inductive RaceEvent
  | resolved (r : AIResult)
  | rejected (providerName : String)

/-- The mutable state of the race closure: the results array and the
settled promise value (none while unsettled). -/
structure RaceState where
  results : List AIResult
  settled : Option (Except String AIResult)

/-- One step of the race state machine: tryResolve for a resolved
promise, tryReject for a rejected one, exactly as in the source
closures. -/
def raceStep (st : RaceState) : RaceEvent → RaceState
  | .resolved r =>
    if st.settled.isSome then st
    else
      let results := st.results ++ [r]
      if !isGarbageOutput r.output && !r.rateLimited then
        { results := results, settled := some (.ok r) }
      else if results.length ≥ 2 then
        match results with
        | r0 :: r1 :: _ =>
          { results := results,
            settled := some (.ok (if r0.output.length ≥ r1.output.length then r0 else r1)) }
        | _ => { results := results, settled := st.settled }
      else
        { results := results, settled := st.settled }
  | .rejected providerName =>
    let results := st.results ++ [racePlaceholder providerName]
    if results.length ≥ 2 && st.settled.isNone then
      match results.find? (fun r => r.output != "") with
      | some v => { results := results, settled := some (.ok v) }
      | none => { results := results, settled := some (.error raceFailMsg) }
    else
      { results := results, settled := st.settled }

/-- The race strategy with two distinct configured providers: both
promises settle, in the order given, and the strategy takes the value
the race promise was settled with. -/
def run (e₁ e₂ : RaceEvent) : Option (Except String AIResult) :=
  (raceStep (raceStep ⟨[], none⟩ e₁) e₂).settled

end RaceStrategy

/-!
## Evaluator quality gate
Source: src/src/prompt/evaluator.js
-/

/-- Result of the structural pre-check. -/
structure StructResult where
  passed : Bool
  feedback : String

/-- Result record of evaluate. -/
structure EvalResult where
  passed : Bool
  feedback : String
  cheatsheet : Option String
deriving DecidableEq, Repr

/-- Outcome of the judge invocation inside evaluate: the awaited runAI
call either threw with a message or returned a result whose output field
may be null. -/
inductive JudgeOutcome
  | threw (msg : String)
  | returned (output : Option String)

/-- The cheatsheet start marker. -/
def cheatsheetStartMarker : String := "=== CHEATSHEET START ==="

/-- The cheatsheet end marker. -/
def cheatsheetEndMarker : String := "=== CHEATSHEET END ==="

/-- The fallback branch of extractCheatsheet: everything after the
APPROVED keyword, trimmed, when longer than 100 characters. -/
def approvedFallback (output : String) : Option String :=
  match strIndexOf output "APPROVED" with
  | some i =>
    let afterApproved := jsTrim (jsSubstringFrom output (i + 8))
    if afterApproved.length > 100 then some afterApproved else none
  | none => none

/-- evaluator.js extractCheatsheet: the marker-delimited block when both
markers occur in order, else the text after APPROVED when long enough,
else null. -/
def extractCheatsheet (output : String) : Option String :=
  match strIndexOf output cheatsheetStartMarker, strIndexOf output cheatsheetEndMarker with
  | some startIdx, some endIdx =>
    if endIdx > startIdx then
      some (jsTrim (jsSubstring output (startIdx + cheatsheetStartMarker.length) endIdx))
    else approvedFallback output
  | some _, none => approvedFallback output
  | none, _ => approvedFallback output

/-- evaluator.js extractFeedback: text after the FEEDBACK marker, else
the first 500 characters after REJECTED, else null. -/
def extractFeedback (output : String) : Option String :=
  match strIndexOf output "=== FEEDBACK ===" with
  | some i => some (jsTrim (jsSubstringFrom output (i + 16)))
  | none =>
    match strIndexOf output "REJECTED" with
    | some i => some (jsSubstring (jsTrim (jsSubstringFrom output (i + 8))) 0 500)
    | none => none

/-- evaluator.js evaluate, as a function of the debate output, the
structural pre-check (the regex-count check of lines 90 to 110, kept
abstract because no claim depends on its verdict), the force flag and
the judge invocation outcome. Mirrors the branch structure of lines 29
to 85, including the JS truthiness coercions. -/
def evaluate (debateOutput : String) (structuralCheck : String → StructResult)
    (force : Bool) (judge : JudgeOutcome) : EvalResult :=
  let structuralResult := structuralCheck debateOutput
  if !force && !structuralResult.passed then
    { passed := false, feedback := structuralResult.feedback, cheatsheet := none }
  else
    match judge with
    | .threw msg =>
      if force then
        { passed := true, feedback := "Evaluator failed, using raw debate output",
          cheatsheet := some debateOutput }
      else
        { passed := false, feedback := "Evaluator error: " ++ msg, cheatsheet := none }
    | .returned resultOutput =>
      let output := resultOutput.getD ""
      if sIncludes output "APPROVED" then
        match extractCheatsheet output with
        | some c =>
          if c.length > 100 then { passed := true, feedback := "", cheatsheet := some c }
          else { passed := true, feedback := "", cheatsheet := some debateOutput }
        | none => { passed := true, feedback := "", cheatsheet := some debateOutput }
      else if sIncludes output "REJECTED" && !force then
        { passed := false,
          feedback :=
            match extractFeedback output with
            | some f =>
              if f != "" then f else "Evaluator rejected without specific feedback"
            | none => "Evaluator rejected without specific feedback",
          cheatsheet := none }
      else if force then
        { passed := true, feedback := "Forced extraction",
          cheatsheet :=
            match extractCheatsheet output with
            | some c => if c != "" then some c else some debateOutput
            | none => some debateOutput }
      else
        { passed := false, feedback := "Evaluator produced ambiguous response",
          cheatsheet := none }

/-!
## Checkpoint store
Source: src/src/pipeline/checkpoint.js, and saveRoundOutput from the
debate engine (src/unnamed/part_020). The filesystem is a map from path
to file content; the cwd prefix of STATE_DIR is elided since every path
shares it. JSON serialization of the state record is modelled by storing
the record itself, and a JSON.parse failure by a file holding plain
text where the state record is expected.
-/

/-- Step payload persisted by saveCheckpoint: the cheatsheet field the
store treats specially (none models an absent cheatsheet key) and the
remaining opaque string-valued entries. The extra entries stand for the
payload keys other than cheatsheet; they may include currentStep or
timestamp entries, which the JS spread lets override the bookkeeping
fields. -/
structure Payload where
  cheatsheet : Option String
  extra : List (String × String)
deriving DecidableEq, Repr

/-- The value a JS object literal gives a key when these entries are
written after it: the last entry under the key wins, none when the key
does not occur. Models the late spread of the payload in
saveCheckpoint. -/
def lastEntry? (key : String) : List (String × String) → Option String
  | [] => none
  | (k, v) :: rest =>
    match lastEntry? key rest with
    | some w => some w
    | none => if k = key then some v else none

/-- The state.json record after the spread: the currentStep and
timestamp fields hold the post-spread values (the payload is spread
last, so its entries override the bookkeeping), and the payload is kept
whole; an overriding extra entry is thus recorded both in the field and
in the payload, with the same value. -/
structure StateJson where
  currentStep : String
  timestamp : String
  payload : Payload
deriving DecidableEq, Repr

/-- Content of one file: a serialized state record or plain text. -/
inductive FileContent
  | jsonState (st : StateJson)
  | text (s : String)
deriving DecidableEq, Repr

/-- The filesystem: path to content, none when the path is absent. -/
def Fs : Type := String → Option FileContent

/-- writeFileSync. -/
def fsWrite (p : String) (c : FileContent) (fs : Fs) : Fs :=
  fun q => if q = p then some c else fs q

/-- unlinkSync. -/
def fsUnlink (p : String) (fs : Fs) : Fs :=
  fun q => if q = p then none else fs q

/-- STATE_DIR, with the cwd prefix elided. -/
def STATE_DIR : String := ".pipeline-state"

/-- checkpoint.js getCheckpointDir. -/
def getCheckpointDir (ticketKey : String) : String :=
  STATE_DIR ++ "/" ++ ticketKey

/-- Path of the per-ticket state.json file. -/
def statePath (ticketKey : String) : String :=
  getCheckpointDir ticketKey ++ "/state.json"

/-- Path of the per-ticket cheatsheet.md artifact. -/
def cheatsheetPath (ticketKey : String) : String :=
  getCheckpointDir ticketKey ++ "/cheatsheet.md"

/-- Path of a per-round debate output file, as built by saveRoundOutput. -/
def roundPath (ticketKey : String) (round : Nat) (agent : String) : String :=
  getCheckpointDir ticketKey ++ "/debate-rounds/round-" ++ toString round ++ "-" ++
    agent.toLower ++ ".md"

/-- checkpoint.js saveCheckpoint: build the state as the object literal
with currentStep, timestamp and the payload spread last — so payload
entries named currentStep or timestamp override the bookkeeping — write
it to state.json, and when the payload carries a truthy cheatsheet also
write it to the cheatsheet.md artifact. now models the timestamp. -/
def saveCheckpoint (ticketKey step : String) (now : String) (data : Payload) (fs : Fs) : Fs :=
  let state : StateJson :=
    { currentStep := (lastEntry? "currentStep" data.extra).getD step,
      timestamp := (lastEntry? "timestamp" data.extra).getD now,
      payload := data }
  let fs1 := fsWrite (statePath ticketKey) (.jsonState state) fs
  match data.cheatsheet with
  | some c => if c ≠ "" then fsWrite (cheatsheetPath ticketKey) (.text c) fs1 else fs1
  | none => fs1

/-- The state record loadCheckpoint hands back: the parsed state with
the cheatsheet field possibly overridden from the artifact. -/
structure LoadedState where
  currentStep : String
  timestamp : String
  cheatsheet : Option String
  extra : List (String × String)
deriving DecidableEq, Repr

/-- checkpoint.js loadCheckpoint: null when state.json is absent or
fails to parse; otherwise the parsed state, with the cheatsheet field
replaced by the cheatsheet.md content when that artifact exists. -/
def loadCheckpoint (ticketKey : String) (fs : Fs) : Option LoadedState :=
  match fs (statePath ticketKey) with
  | none => none
  | some (.text _) => none
  | some (.jsonState st) =>
    let base : LoadedState :=
      { currentStep := st.currentStep, timestamp := st.timestamp,
        cheatsheet := st.payload.cheatsheet, extra := st.payload.extra }
    match fs (cheatsheetPath ticketKey) with
    | some (.text c) => some { base with cheatsheet := some c }
    | some (.jsonState _) => some base
    | none => some base

/-- checkpoint.js clearCheckpoint: unlink state.json when it exists;
nothing else is touched. -/
def clearCheckpoint (ticketKey : String) (fs : Fs) : Fs :=
  if (fs (statePath ticketKey)).isSome then fsUnlink (statePath ticketKey) fs else fs

/-!
## Debate engine
Source: src/unnamed/part_020 (runDebate). The two agent invocations per
round go through runAI; their outcomes are supplied by an environment
oracle indexed by round number, since the engine only consumes the
output text and the rateLimited flag of each result. The judge outcome
of each per-round evaluate call, and of the final forced call, comes
from the same environment. Round outputs are saved through the
checkpoint path model above; the save itself is non-critical and does
not influence control flow, so the engine model records the invocation
trace instead.
-/

/-- The fields of a runAI result the debate engine consumes. -/
structure AgentResult where
  output : Option String
  rateLimited : Bool

/-- Outcome of one awaited agent invocation. -/
inductive AgentOutcome
  | threw
  | ok (r : AgentResult)

/-- Environment oracle for one debate run. -/
structure DebateEnv where
  agentA : Nat → AgentOutcome
  agentB : Nat → AgentOutcome
  judge : Nat → JudgeOutcome
  finalJudge : JudgeOutcome

/-- The combined debate output submitted to the evaluator after a
round. -/
def combineDebate (agentAOutput agentBOutput : String) : String :=
  "## Agent A" ++ apostr ++ "s Final Proposal\n\n" ++ agentAOutput ++
    "\n\n## Agent B" ++ apostr ++ "s Final Position\n\n" ++ agentBOutput

/-- Result record of runDebate. -/
structure DebateResult where
  passed : Bool
  cheatsheet : Option String
  feedback : Option String
  rounds : Nat
deriving DecidableEq, Repr

/-- How the round loop of runDebate ended: approved mid-loop, or fell
out of the loop (by a break or after the last round), carrying the last
combined debate output and the trace of agent invocation labels. -/
inductive LoopExit
  | approved (cheatsheet : Option String) (round : Nat) (trace : List String)
  | broke (lastDebateOutput : String) (trace : List String)

/-- The round loop of runDebate: fuel counts the remaining rounds, round
is the current round number. Each agent invocation appends its label to
the trace at call time, so thrown invocations are counted too. A throw
or rate limit of either agent breaks out of the loop; otherwise the
combined output is evaluated with force on the last round, approval
returns immediately, and rejection continues with the next round. -/
def debateLoop (env : DebateEnv) (structuralCheck : String → StructResult)
    (maxRounds : Nat) : Nat → Nat → String → List String → LoopExit
  | _round, 0, lastDebateOutput, trace => .broke lastDebateOutput trace
  | round, fuel + 1, lastDebateOutput, trace =>
    let traceA := trace ++ ["debate-r" ++ toString round ++ "-a"]
    match env.agentA round with
    | .threw => .broke lastDebateOutput traceA
    | .ok aRes =>
      let agentAOutput := aRes.output.getD ""
      if aRes.rateLimited then .broke lastDebateOutput traceA
      else
        let traceB := traceA ++ ["debate-r" ++ toString round ++ "-b"]
        match env.agentB round with
        | .threw => .broke lastDebateOutput traceB
        | .ok bRes =>
          let agentBOutput := bRes.output.getD ""
          if bRes.rateLimited then .broke lastDebateOutput traceB
          else
            let newLast := combineDebate agentAOutput agentBOutput
            let evalResult := evaluate newLast structuralCheck (round == maxRounds)
              (env.judge round)
            if evalResult.passed then .approved evalResult.cheatsheet round traceB
            else debateLoop env structuralCheck maxRounds (round + 1) fuel newLast traceB

/-- The failure feedback of runDebate. -/
def debateFailMsg : String := "Debate failed to produce an acceptable cheatsheet"

/-- runDebate: run the round loop from round 1; on fallthrough with a
non-empty last debate output, invoke the evaluator once more in forced
mode and succeed when it produced a truthy cheatsheet. Returns the
result record and the agent invocation trace. -/
def runDebate (env : DebateEnv) (structuralCheck : String → StructResult)
    (maxRounds : Nat) : DebateResult × List String :=
  match debateLoop env structuralCheck maxRounds 1 maxRounds "" [] with
  | .approved cheatsheet round trace =>
    ({ passed := true, cheatsheet := cheatsheet, feedback := none, rounds := round }, trace)
  | .broke lastDebateOutput trace =>
    if lastDebateOutput ≠ "" then
      let forceResult := evaluate lastDebateOutput structuralCheck true env.finalJudge
      match forceResult.cheatsheet with
      | some c =>
        if c ≠ "" then
          ({ passed := true, cheatsheet := some c, feedback := some "Forced after max rounds",
             rounds := maxRounds }, trace)
        else
          ({ passed := false, cheatsheet := none, feedback := some debateFailMsg,
             rounds := maxRounds }, trace)
      | none =>
        ({ passed := false, cheatsheet := none, feedback := some debateFailMsg,
           rounds := maxRounds }, trace)
    else
      ({ passed := false, cheatsheet := none, feedback := some debateFailMsg,
         rounds := maxRounds }, trace)

/-!
## Execute step retry loop
Source: src/src/pipeline/index.js, processServiceBranch step 5 and 6.
The loop runs execute up to maxRetries times; an attempt whose output is
empty retries immediately while attempts remain and otherwise ends the
branch with the no-output error; a non-empty attempt that fails
execution-validation retries while attempts remain, and otherwise the
loop breaks and the branch proceeds with that attempt. The checkpoint
write between execution and validation does not influence control flow
and is omitted here.
-/

/-- validateExecution result record. -/
structure ValidationResult where
  valid : Bool
  issues : List String

/-- Environment oracle for the execute step: the execution result and
the validation verdict of each attempt. -/
structure ExecEnv where
  execResult : Nat → AIResult
  validation : Nat → ValidationResult

/-- The empty-output test of the execute loop. -/
def emptyOut (r : AIResult) : Bool :=
  r.output == "" || jsTrim r.output == ""

/-- How the execute loop ended. -/
inductive ExecOutcome
  | noOutput (attempts : Nat)
  | proceeded (r : AIResult) (attempts : Nat)
  | fellOut
deriving DecidableEq, Repr

/-- Attempts consumed by an execute-loop outcome. -/
def ExecOutcome.attempts : ExecOutcome → Nat
  | .noOutput n => n
  | .proceeded _ n => n
  | .fellOut => 0

/-- The execute retry loop, with fuel counting the remaining
iterations. -/
def execLoopAux (env : ExecEnv) (maxRetries : Nat) : Nat → Nat → ExecOutcome
  | _attempt, 0 => .fellOut
  | attempt, fuel + 1 =>
    let executionResult := env.execResult attempt
    if emptyOut executionResult then
      if attempt < maxRetries then execLoopAux env maxRetries (attempt + 1) fuel
      else .noOutput attempt
    else
      let validationResult := env.validation attempt
      if !validationResult.valid && attempt < maxRetries then
        execLoopAux env maxRetries (attempt + 1) fuel
      else .proceeded executionResult attempt

/-- The execute step: attempts run from 1 to maxRetries. -/
def runExecuteStep (env : ExecEnv) (maxRetries : Nat) : ExecOutcome :=
  execLoopAux env maxRetries 1 maxRetries


/-!
## Concrete fixtures for witnesses and counterexamples
-/

/-- A structural check that rejects everything: forced mode must ignore
it. -/
def rejectingStructuralCheck : String → StructResult :=
  fun _ => { passed := false, feedback := "structurally rejected" }

/-- A structural check that accepts everything. -/
def acceptingStructuralCheck : String → StructResult :=
  fun _ => { passed := true, feedback := "" }

/-- An adapter whose parse returns stdout verbatim. -/
def plainAdapter : Adapter :=
  { parseStreamOutput := fun s _ => { output := s, completedNormally := false, numTurns := none },
    isRateLimited := fun _ => false }

/-- A result that resolved with empty output (exit 0, empty stdout). -/
def emptyOutputResult : AIResult :=
  { output := "", completedNormally := false, exitCode := 0, numTurns := none,
    rateLimited := false, provider := "claude", duration := 100 }

/-- A short but non-empty (hence garbage) resolved result. -/
def shortOutputResult : AIResult :=
  { output := "ok result", completedNormally := true, exitCode := 0, numTurns := none,
    rateLimited := false, provider := "claude", duration := 1000 }

/-- A garbage primary result for the parallel counterexample. -/
def garbagePrimaryResult : AIResult :=
  { output := "", completedNormally := false, exitCode := 1, numTurns := none,
    rateLimited := false, provider := "claude", duration := 5 }

/-- A structured, non-garbage secondary result. -/
def structuredSecondaryResult : AIResult :=
  { output := "FILES CHANGED: src/a.js and src/b.js updated with the new handler SUMMARY: done RISKS: none",
    completedNormally := true, exitCode := 0, numTurns := some 3,
    rateLimited := false, provider := "codex", duration := 7 }

/-- A non-garbage, unstructured primary result. -/
def goodPrimaryResult : AIResult :=
  { output := "primary output text that is long enough to be non garbage here",
    completedNormally := true, exitCode := 0, numTurns := some 2,
    rateLimited := false, provider := "claude", duration := 4 }

/-- An empty filesystem. -/
def emptyFs : Fs := fun _ => none

/-- A payload carrying a cheatsheet and one extra entry. -/
def samplePayload : Payload :=
  { cheatsheet := some "the plan", extra := [("cloneDir", "/tmp/x")] }

/-- A payload whose extra entries carry a currentStep key of their own:
the JS spread makes it override the saved step. -/
def overridingPayload : Payload :=
  { cheatsheet := none, extra := [("currentStep", "EVIL")] }

/-- A debate environment whose round-1 agents succeed and whose judge
approves immediately. -/
def approvingDebateEnv : DebateEnv :=
  { agentA := fun _ => .ok { output := some "proposal text", rateLimited := false },
    agentB := fun _ => .ok { output := some "critique text", rateLimited := false },
    judge := fun _ => .returned (some "APPROVED"),
    finalJudge := .returned none }

/-- The empty execution attempt result. -/
def emptyAttemptResult : AIResult :=
  { output := "", completedNormally := false, exitCode := 0, numTurns := none,
    rateLimited := false, provider := "claude", duration := 0 }

/-- An execute environment every attempt of which produces empty
output. -/
def emptyExecEnv : ExecEnv :=
  { execResult := fun _ => emptyAttemptResult,
    validation := fun _ => { valid := true, issues := [] } }

/-!
## Helper lemmas
-/

/-- String append unfolds to list append on the character data. -/
theorem string_data_append (a b : String) : (a ++ b).data = a.data ++ b.data := rfl

/-- Length of the character data of a String append. -/
theorem strLen_append (a b : String) : (a ++ b).data.length = a.data.length + b.data.length := by
  rw [string_data_append, List.length_append]

/-- runProvider always stamps the given provider name. -/
theorem FallbackStrategy.runProvider_provider (n : String) (a : Adapter) (o : SpawnOutcome) :
    (FallbackStrategy.runProvider n a o).provider = n := by
  cases o <;> rfl

/-- The state.json path differs from the cheatsheet.md path of the same
ticket. -/
theorem statePath_ne_cheatsheetPath (k : String) : statePath k ≠ cheatsheetPath k := by
  intro h
  have hlen := congrArg (fun s => s.data.length) h
  simp only [statePath, cheatsheetPath, getCheckpointDir, STATE_DIR, strLen_append,
    List.length_cons, List.length_nil] at hlen
  omega

/-- The state.json path differs from every per-round debate output path
of the same ticket. -/
theorem statePath_ne_roundPath (k : String) (round : Nat) (agent : String) :
    statePath k ≠ roundPath k round agent := by
  intro h
  have hlen := congrArg (fun s => s.data.length) h
  simp only [statePath, roundPath, getCheckpointDir, STATE_DIR, strLen_append,
    List.length_cons, List.length_nil] at hlen
  omega

/-- The JS reduce picks one of the listed results. -/
theorem reduceMaxLen_mem (a : AIResult) (l : List AIResult) : reduceMaxLen a l ∈ a :: l := by
  induction l generalizing a with
  | nil => simp [reduceMaxLen]
  | cons b t ih =>
    simp only [reduceMaxLen]
    have h := ih (if a.output.length > b.output.length then a else b)
    rcases List.mem_cons.mp h with h1 | h1
    · rw [h1]
      split
      · exact List.mem_cons_self _ _
      · exact List.mem_cons_of_mem _ (List.mem_cons_self _ _)
    · exact List.mem_cons_of_mem _ (List.mem_cons_of_mem _ h1)

/-- The empty string is garbage output. -/
theorem isGarbageOutput_empty : isGarbageOutput "" = true := rfl

/-!
## Claim theorems
-/

/-- Claim C9: runProvider in both the fallback and the parallel strategy
absorbs a thrown invocation into the failure-shaped result with empty
output, completedNormally false, exit code -1, null turn count, no rate
limit, zero duration and the provider name; consequently the fallback
strategy returns a result value rather than rejecting even when both the
primary and the configured fallback invocation throw. -/
theorem c9_runProvider_absorbs_throw (n n₂ : String) (a a₂ : Adapter) :
    FallbackStrategy.runProvider n a .threw =
      { output := "", completedNormally := false, exitCode := -1, numTurns := none,
        rateLimited := false, provider := n, duration := 0 } ∧
    ParallelStrategy.runProvider n a .threw =
      { output := "", completedNormally := false, exitCode := -1, numTurns := none,
        rateLimited := false, provider := n, duration := 0 } ∧
    FallbackStrategy.run n n₂ a a₂ true .threw .threw =
      { output := "", completedNormally := false, exitCode := -1, numTurns := none,
        rateLimited := false, provider := n₂, duration := 0 } :=
  ⟨rfl, rfl, rfl⟩

/-- The success test the fallback strategy applies to the primary
result: completed normally, not rate-limited, non-garbage output. -/
def primarySucceeded (p : AIResult) : Bool :=
  p.completedNormally && !p.rateLimited && !isGarbageOutput p.output

/-- Claim C5: the fallback strategy returns the primary invocation
result exactly when it completed normally, is not rate-limited and has
non-garbage output; otherwise, with a fallback configured, it returns
the fallback invocation result regardless of its quality, whose provider
name is the fallback provider name; otherwise it returns the failing
primary result. -/
theorem c5_fallback_run_spec (n₁ n₂ : String) (a₁ a₂ : Adapter) (configured : Bool)
    (o₁ o₂ : SpawnOutcome) :
    (primarySucceeded (FallbackStrategy.runProvider n₁ a₁ o₁) = true →
      FallbackStrategy.run n₁ n₂ a₁ a₂ configured o₁ o₂ =
        FallbackStrategy.runProvider n₁ a₁ o₁) ∧
    (primarySucceeded (FallbackStrategy.runProvider n₁ a₁ o₁) = false →
      configured = true →
      FallbackStrategy.run n₁ n₂ a₁ a₂ configured o₁ o₂ =
        FallbackStrategy.runProvider n₂ a₂ o₂ ∧
      (FallbackStrategy.run n₁ n₂ a₁ a₂ configured o₁ o₂).provider = n₂) ∧
    (primarySucceeded (FallbackStrategy.runProvider n₁ a₁ o₁) = false →
      configured = false →
      FallbackStrategy.run n₁ n₂ a₁ a₂ configured o₁ o₂ =
        FallbackStrategy.runProvider n₁ a₁ o₁) := by
  refine ⟨?_, ?_, ?_⟩
  · intro hgood
    simp only [primarySucceeded] at hgood
    simp only [FallbackStrategy.run, hgood, if_true]
  · intro hbad hconf
    subst hconf
    simp only [primarySucceeded] at hbad
    refine ⟨?_, ?_⟩
    · simp only [FallbackStrategy.run, hbad]
      simp
    · simp only [FallbackStrategy.run, hbad]
      simp [FallbackStrategy.runProvider_provider]
  · intro hbad hconf
    subst hconf
    simp only [primarySucceeded] at hbad
    simp only [FallbackStrategy.run, hbad]
    simp

/-- Witness for c5_fallback_run_spec: primary invocation throws, a
fallback is configured and also throws; the fallback result with the
fallback provider name is returned. -/
theorem c5_fallback_run_witness :
    FallbackStrategy.run "claude" "codex" plainAdapter plainAdapter true .threw .threw =
      FallbackStrategy.runProvider "codex" plainAdapter .threw ∧
    (FallbackStrategy.run "claude" "codex" plainAdapter plainAdapter true .threw .threw).provider =
      "codex" :=
  (c5_fallback_run_spec "claude" "codex" plainAdapter plainAdapter true .threw .threw).2.1
    rfl rfl

/-- Claim C1: invoking the evaluator in forced mode on a debate
transcript with non-empty text yields passed true and a non-null
cheatsheet, and when the judge invocation throws the cheatsheet is the
raw transcript itself. -/
theorem c1_evaluate_forced_nonnull (d : String) (sc : String → StructResult)
    (j : JudgeOutcome) (hd : d ≠ "") :
    (evaluate d sc true j).passed = true ∧
    (evaluate d sc true j).cheatsheet ≠ none ∧
    (∀ msg, j = .threw msg → (evaluate d sc true j).cheatsheet = some d) := by
  cases j with
  | threw msg =>
    refine ⟨rfl, ?_, fun m hm => rfl⟩
    simp [evaluate]
  | returned o =>
    have hkey : (evaluate d sc true (.returned o)).passed = true ∧
        (evaluate d sc true (.returned o)).cheatsheet ≠ none := by
      simp only [evaluate, Bool.not_true, Bool.false_and]
      cases hA : sIncludes (o.getD "") "APPROVED" with
      | true =>
        simp only [hA, if_true]
        cases hc : extractCheatsheet (o.getD "") with
        | none => simp
        | some c =>
          by_cases hlen : c.length > 100
          · simp [hlen]
          · simp [hlen]
      | false =>
        simp only [hA, Bool.and_false]
        cases hc : extractCheatsheet (o.getD "") with
        | none => simp [hc]
        | some c =>
          by_cases hce : c = ""
          · simp [hc, hce]
          · simp [hc, hce]
    exact ⟨hkey.1, hkey.2, fun m hm => JudgeOutcome.noConfusion hm⟩

/-- Witness for c1_evaluate_forced_nonnull: a non-empty transcript, an
everything-rejecting structural check and a throwing judge still yield
passed true with the transcript as cheatsheet. -/
theorem c1_evaluate_forced_witness :
    (evaluate "transcript" rejectingStructuralCheck true (.threw "boom")).passed = true ∧
    (evaluate "transcript" rejectingStructuralCheck true (.threw "boom")).cheatsheet =
      some "transcript" :=
  ⟨(c1_evaluate_forced_nonnull "transcript" rejectingStructuralCheck (.threw "boom")
      (by decide)).1,
   (c1_evaluate_forced_nonnull "transcript" rejectingStructuralCheck (.threw "boom")
      (by decide)).2.2 "boom" rfl⟩

/-- Claim C2: clearCheckpoint removes only the state.json file of the
given ticket: every other path, in particular the cheatsheet.md artifact
and every per-round debate output of that ticket, is left unchanged. -/
theorem c2_clearCheckpoint_frame (fs : Fs) (k : String) :
    (clearCheckpoint k fs) (statePath k) = none ∧
    (∀ p, p ≠ statePath k → clearCheckpoint k fs p = fs p) ∧
    (clearCheckpoint k fs) (cheatsheetPath k) = fs (cheatsheetPath k) ∧
    (∀ round agent, (clearCheckpoint k fs) (roundPath k round agent) =
      fs (roundPath k round agent)) := by
  have hframe : ∀ p, p ≠ statePath k → clearCheckpoint k fs p = fs p := by
    intro p hp
    unfold clearCheckpoint fsUnlink
    by_cases hs : (fs (statePath k)).isSome
    · simp [hs, hp]
    · simp [hs]
  refine ⟨?_, hframe, ?_, ?_⟩
  · unfold clearCheckpoint fsUnlink
    by_cases hs : (fs (statePath k)).isSome
    · simp [hs]
    · simp only [hs, if_false]
      exact Option.not_isSome_iff_eq_none.mp hs
  · exact hframe _ (Ne.symm (statePath_ne_cheatsheetPath k))
  · intro round agent
    exact hframe _ (Ne.symm (statePath_ne_roundPath k round agent))

/-- Witness for c2_clearCheckpoint_frame: after saving a checkpoint with
a cheatsheet for ticket ABC-1 and clearing it, the cheatsheet.md
artifact still holds the plan while state.json is gone. -/
theorem c2_clearCheckpoint_witness :
    (clearCheckpoint "ABC-1" (saveCheckpoint "ABC-1" "NOTIFY" "t0" samplePayload emptyFs))
      (cheatsheetPath "ABC-1") = some (.text "the plan") ∧
    (clearCheckpoint "ABC-1" (saveCheckpoint "ABC-1" "NOTIFY" "t0" samplePayload emptyFs))
      (statePath "ABC-1") = none := by
  have h := c2_clearCheckpoint_frame
    (saveCheckpoint "ABC-1" "NOTIFY" "t0" samplePayload emptyFs) "ABC-1"
  refine ⟨?_, h.1⟩
  rw [h.2.1 (cheatsheetPath "ABC-1") (Ne.symm (statePath_ne_cheatsheetPath "ABC-1"))]
  rfl

/-- Claim C8 counterexample: a payload carrying its own currentStep
entry is spread last by saveCheckpoint, so loading back yields that
entry's value, EVIL, instead of the saved step EXECUTE — the unqualified
roundtrip claim fails on this payload. -/
theorem c8_checkpoint_counterexample :
    loadCheckpoint "ABC-1"
        (saveCheckpoint "ABC-1" "EXECUTE" "t0" overridingPayload emptyFs) =
      some { currentStep := "EVIL", timestamp := "t0", cheatsheet := none,
             extra := [("currentStep", "EVIL")] } ∧
    ("EVIL" : String) ≠ "EXECUTE" := by
  refine ⟨rfl, ?_⟩
  decide

/-- Claim C8 amended: for every ticket key, step name and payload with
no currentStep entry of its own, saveCheckpoint followed by
loadCheckpoint yields a state whose currentStep equals the saved step,
and when the payload carried a (truthy) cheatsheet the loaded cheatsheet
field equals both that cheatsheet and the content of the separately
persisted cheatsheet.md artifact. -/
theorem c8_checkpoint_roundtrip (fs : Fs) (k step now : String) (data : Payload)
    (hcs : lastEntry? "currentStep" data.extra = none) :
    (∃ st, loadCheckpoint k (saveCheckpoint k step now data fs) = some st ∧
      st.currentStep = step) ∧
    (∀ c, data.cheatsheet = some c → c ≠ "" →
      ∃ st, loadCheckpoint k (saveCheckpoint k step now data fs) = some st ∧
        st.currentStep = step ∧ st.cheatsheet = some c ∧
        saveCheckpoint k step now data fs (cheatsheetPath k) = some (.text c)) := by
  have h1 : (saveCheckpoint k step now data fs) (statePath k) =
      some (.jsonState ⟨step, (lastEntry? "timestamp" data.extra).getD now, data⟩) := by
    simp only [saveCheckpoint, hcs, Option.getD_none]
    rcases hdc : data.cheatsheet with _ | c
    · simp [fsWrite]
    · by_cases hce : c = ""
      · simp [hce, fsWrite]
      · simp [hce, fsWrite, statePath_ne_cheatsheetPath k]
  constructor
  · rcases hart : (saveCheckpoint k step now data fs) (cheatsheetPath k) with _ | fc
    · exact ⟨⟨step, (lastEntry? "timestamp" data.extra).getD now, data.cheatsheet,
        data.extra⟩, by simp [loadCheckpoint, h1, hart], rfl⟩
    · cases fc with
      | jsonState st2 =>
        exact ⟨⟨step, (lastEntry? "timestamp" data.extra).getD now, data.cheatsheet,
          data.extra⟩, by simp [loadCheckpoint, h1, hart], rfl⟩
      | text c2 =>
        exact ⟨⟨step, (lastEntry? "timestamp" data.extra).getD now, some c2,
          data.extra⟩, by simp [loadCheckpoint, h1, hart], rfl⟩
  · intro c hdc hce
    have h2 : (saveCheckpoint k step now data fs) (cheatsheetPath k) = some (.text c) := by
      simp [saveCheckpoint, hdc, hce, fsWrite]
    exact ⟨⟨step, (lastEntry? "timestamp" data.extra).getD now, some c, data.extra⟩,
      by simp [loadCheckpoint, h1, h2], rfl, rfl, h2⟩

/-- Witness for c8_checkpoint_roundtrip: a concrete save of step
BUILD_CHEATSHEET with plan text and no colliding payload key loads back
with the same step and the plan equal to the persisted artifact. -/
theorem c8_checkpoint_roundtrip_witness :
    ∃ st, loadCheckpoint "ABC-1"
        (saveCheckpoint "ABC-1" "BUILD_CHEATSHEET" "t0" samplePayload emptyFs) = some st ∧
      st.currentStep = "BUILD_CHEATSHEET" ∧ st.cheatsheet = some "the plan" ∧
      saveCheckpoint "ABC-1" "BUILD_CHEATSHEET" "t0" samplePayload emptyFs
        (cheatsheetPath "ABC-1") = some (.text "the plan") :=
  (c8_checkpoint_roundtrip emptyFs "ABC-1" "BUILD_CHEATSHEET" "t0" samplePayload rfl).2
    "the plan" rfl (by decide)

/-- Claim C3 counterexample: the primary resolves (does not throw) with
empty output, then the secondary throws; only one invocation threw, yet
the race strategy settles with the rejection. -/
theorem c3_race_counterexample :
    RaceStrategy.run (.resolved emptyOutputResult) (.rejected "codex") =
      some (.error RaceStrategy.raceFailMsg) := by
  rfl

/-- Claim C3 amended: if exactly one invocation throws and the other
resolves with non-empty output, the race strategy resolves with the
other invocation's result in either settlement order; when both throw
it rejects. -/
theorem c3_race_amended (r : AIResult) (n n₁ n₂ : String) (hr : r.output ≠ "") :
    RaceStrategy.run (.resolved r) (.rejected n) = some (.ok r) ∧
    RaceStrategy.run (.rejected n) (.resolved r) = some (.ok r) ∧
    RaceStrategy.run (.rejected n₁) (.rejected n₂) = some (.error RaceStrategy.raceFailMsg) := by
  have hr' : (r.output != "") = true := by simp [hr]
  have hlen : 0 < r.output.length := by
    have hd : r.output.data ≠ [] := by
      intro hnil
      exact hr (String.ext (hnil.trans rfl))
    exact List.length_pos.mpr hd
  refine ⟨?_, ?_, ?_⟩
  · cases hg : (!isGarbageOutput r.output && !r.rateLimited) with
    | true =>
      simp [RaceStrategy.run, RaceStrategy.raceStep, hg]
    | false =>
      simp [RaceStrategy.run, RaceStrategy.raceStep, hg, List.find?, hr']
  · cases hg : (!isGarbageOutput r.output && !r.rateLimited) with
    | true =>
      simp [RaceStrategy.run, RaceStrategy.raceStep, hg, RaceStrategy.racePlaceholder]
    | false =>
      simp [RaceStrategy.run, RaceStrategy.raceStep, hg, RaceStrategy.racePlaceholder]
      omega
  · simp [RaceStrategy.run, RaceStrategy.raceStep, List.find?, RaceStrategy.racePlaceholder]

/-- Witness for c3_race_amended: a short non-empty resolved output with
a throwing peer resolves with that output in both orders, and a double
throw rejects. -/
theorem c3_race_amended_witness :
    RaceStrategy.run (.resolved shortOutputResult) (.rejected "codex") =
      some (.ok shortOutputResult) ∧
    RaceStrategy.run (.rejected "codex") (.resolved shortOutputResult) =
      some (.ok shortOutputResult) ∧
    RaceStrategy.run (.rejected "claude") (.rejected "codex") =
      some (.error RaceStrategy.raceFailMsg) :=
  c3_race_amended shortOutputResult "codex" "claude" "codex" (by decide)

/-- Claim C4 counterexample: in write-capable mode the best-output rule
selects the secondary (structured output, codex), but because the
primary's output is garbage the strategy returns the secondary's result,
not the primary's. -/
theorem c4_parallel_counterexample :
    pickBestOutput [garbagePrimaryResult, structuredSecondaryResult] =
      some structuredSecondaryResult ∧
    structuredSecondaryResult.provider = "codex" ∧
    ParallelStrategy.run "claude" "codex" (some garbagePrimaryResult)
      (some structuredSecondaryResult) true = .ok structuredSecondaryResult ∧
    structuredSecondaryResult ≠ garbagePrimaryResult := by
  refine ⟨rfl, rfl, rfl, ?_⟩
  decide

/-- Claim C4 amended: in write-capable mode with two configured
providers, whenever the best-output winner is the secondary provider and
the primary's result has non-garbage output, the strategy returns the
primary's result instead. -/
theorem c4_parallel_write_prefers_primary (nameA nameB : String) (rA rB best : AIResult)
    (hbest : pickBestOutput [rA, rB] = some best) (hprov : best.provider = nameB)
    (hA : isGarbageOutput rA.output = false) :
    ParallelStrategy.run nameA nameB (some rA) (some rB) true = .ok rA := by
  simp [ParallelStrategy.run, hbest, hprov, hA]

/-- Witness for c4_parallel_write_prefers_primary: the secondary wins on
structured output, the primary output is non-garbage, and the strategy
returns the primary result. -/
theorem c4_parallel_write_prefers_primary_witness :
    ParallelStrategy.run "claude" "codex" (some goodPrimaryResult)
      (some structuredSecondaryResult) true = .ok goodPrimaryResult :=
  c4_parallel_write_prefers_primary "claude" "codex" goodPrimaryResult
    structuredSecondaryResult structuredSecondaryResult rfl rfl rfl

/-- Claim C10: pickBestOutput returns null only for the empty candidate
list, otherwise an element of the input list, and whenever some
candidate has non-garbage output the returned element's output is
non-garbage. -/
theorem c10_pickBestOutput_spec (results : List AIResult) :
    (pickBestOutput results = none → results = []) ∧
    (∀ r, pickBestOutput results = some r → r ∈ results) ∧
    ((∃ x ∈ results, isGarbageOutput x.output = false) →
      ∃ r, pickBestOutput results = some r ∧ isGarbageOutput r.output = false) := by
  have hmemX : ∀ x : AIResult, isGarbageOutput x.output = false →
      (x.output != "" && !isGarbageOutput x.output) = true := by
    intro x hx
    have hne : x.output ≠ "" := by
      intro h0
      rw [h0, isGarbageOutput_empty] at hx
      cases hx
    simp [hx, hne]
  rcases hval : results.filter (fun r => r.output != "" && !isGarbageOutput r.output)
    with _ | ⟨v, vs⟩
  · have hnoval : ∀ x ∈ results, isGarbageOutput x.output = false → False := by
      intro x hx hgx
      have hmem : x ∈ results.filter (fun r => r.output != "" && !isGarbageOutput r.output) :=
        List.mem_filter.mpr ⟨hx, hmemX x hgx⟩
      rw [hval] at hmem
      exact List.not_mem_nil x hmem
    rcases hfind : results.find? (fun r => r.output != "") with _ | r
    · refine ⟨?_, ?_, ?_⟩
      · intro hnone
        cases results with
        | nil => rfl
        | cons a t =>
          simp only [pickBestOutput, hval, hfind] at hnone
          cases hnone
      · intro r hr
        cases results with
        | nil =>
          simp only [pickBestOutput, hval, hfind] at hr
          cases hr
        | cons a t =>
          simp only [pickBestOutput, hval, hfind, List.head?] at hr
          injection hr with h
          rw [← h]
          exact List.mem_cons_self _ _
      · rintro ⟨x, hx, hgx⟩
        exact (hnoval x hx hgx).elim
    · refine ⟨?_, ?_, ?_⟩
      · intro hnone
        simp only [pickBestOutput, hval, hfind] at hnone
        cases hnone
      · intro r' hr'
        simp only [pickBestOutput, hval, hfind] at hr'
        injection hr' with h
        rw [← h]
        exact List.mem_of_find?_eq_some hfind
      · rintro ⟨x, hx, hgx⟩
        exact (hnoval x hx hgx).elim
  · have hsub : ∀ y, y ∈ v :: vs → y ∈ results ∧ isGarbageOutput y.output = false := by
      intro y hy
      rw [← hval] at hy
      have hm := List.mem_filter.mp hy
      refine ⟨hm.1, ?_⟩
      have hp := hm.2
      simp only [Bool.and_eq_true, Bool.not_eq_true'] at hp
      exact hp.2
    have hR : ∃ R, pickBestOutput results = some R ∧ R ∈ v :: vs := by
      simp only [pickBestOutput, hval]
      rcases hstr : List.filter (fun r =>
          sIncludes r.output "FILES CHANGED" || sIncludes r.output "SUMMARY" ||
            sIncludes r.output "RISKS") (v :: vs) with _ | ⟨s, ss⟩
      · rw [hstr]
        rcases hcomp : List.filter (fun r => r.completedNormally) (v :: vs) with _ | ⟨c, cs⟩
        · rw [hcomp]
          exact ⟨reduceMaxLen v vs, rfl, reduceMaxLen_mem v vs⟩
        · rw [hcomp]
          refine ⟨reduceMaxLen c cs, rfl, ?_⟩
          have hm := reduceMaxLen_mem c cs
          rw [← hcomp] at hm
          exact List.mem_of_mem_filter hm
      · rw [hstr]
        refine ⟨reduceMaxLen s ss, rfl, ?_⟩
        have hm := reduceMaxLen_mem s ss
        rw [← hstr] at hm
        exact List.mem_of_mem_filter hm
    obtain ⟨R, hpick, hmemR⟩ := hR
    refine ⟨?_, ?_, ?_⟩
    · intro h
      rw [hpick] at h
      cases h
    · intro r hr
      rw [hpick] at hr
      injection hr with h
      rw [← h]
      exact (hsub R hmemR).1
    · intro _
      exact ⟨R, hpick, (hsub R hmemR).2⟩

/-- Witness for c10_pickBestOutput_spec: a list with one garbage and one
non-garbage candidate yields the non-garbage element of the list. -/
theorem c10_pickBestOutput_witness :
    ∃ r, pickBestOutput [garbagePrimaryResult, goodPrimaryResult] = some r ∧
      isGarbageOutput r.output = false :=
  (c10_pickBestOutput_spec [garbagePrimaryResult, goodPrimaryResult]).2.2
    ⟨goodPrimaryResult, by simp, by decide⟩

/-- Attempt-count bound of the execute loop. -/
theorem execLoopAux_attempts_le (env : ExecEnv) (m : Nat) :
    ∀ fuel attempt, attempt + fuel = m + 1 →
      (execLoopAux env m attempt fuel).attempts ≤ m := by
  intro fuel
  induction fuel with
  | zero =>
    intro attempt _
    simp [execLoopAux, ExecOutcome.attempts]
  | succ f ih =>
    intro attempt h
    simp only [execLoopAux]
    split
    · split
      · exact ih (attempt + 1) (by omega)
      · simp only [ExecOutcome.attempts]
        omega
    · split
      · exact ih (attempt + 1) (by omega)
      · simp only [ExecOutcome.attempts]
        omega

/-- When every remaining attempt is empty, the loop exhausts the budget
and reports no output. -/
theorem execLoopAux_all_empty (env : ExecEnv) (m : Nat) :
    ∀ fuel attempt, attempt + fuel = m + 1 → attempt ≤ m →
      (∀ n, attempt ≤ n → n ≤ m → emptyOut (env.execResult n) = true) →
      execLoopAux env m attempt fuel = .noOutput m := by
  intro fuel
  induction fuel with
  | zero =>
    intro attempt h hle _
    omega
  | succ f ih =>
    intro attempt h hle hempty
    have he : emptyOut (env.execResult attempt) = true := hempty attempt (Nat.le_refl _) hle
    simp only [execLoopAux, he, if_true]
    by_cases hlt : attempt < m
    · simp only [hlt, if_true]
      exact ih (attempt + 1) (by omega) (by omega) (fun n h1 h2 => hempty n (by omega) h2)
    · simp only [hlt, if_false]
      have : attempt = m := by omega
      rw [this]

/-- When every attempt before the last is empty or fails validation and
the last attempt is non-empty, the loop proceeds with the last attempt
regardless of its validation verdict. -/
theorem execLoopAux_reach_last (env : ExecEnv) (m : Nat) :
    ∀ fuel attempt, attempt + fuel = m + 1 → attempt ≤ m →
      (∀ n, attempt ≤ n → n < m →
        emptyOut (env.execResult n) = true ∨ (env.validation n).valid = false) →
      emptyOut (env.execResult m) = false →
      execLoopAux env m attempt fuel = .proceeded (env.execResult m) m := by
  intro fuel
  induction fuel with
  | zero =>
    intro attempt h hle _ _
    omega
  | succ f ih =>
    intro attempt h hle hpre hlast
    by_cases heq : attempt = m
    · subst heq
      simp [execLoopAux, hlast, Nat.lt_irrefl]
    · have hlt : attempt < m := by omega
      cases he : emptyOut (env.execResult attempt) with
      | true =>
        simp only [execLoopAux, he, if_true, hlt, if_true]
        exact ih (attempt + 1) (by omega) (by omega)
          (fun n h1 h2 => hpre n (by omega) h2) hlast
      | false =>
        have hv : (env.validation attempt).valid = false := by
          rcases hpre attempt (Nat.le_refl _) hlt with h1 | h1
          · rw [he] at h1
            cases h1
          · exact h1
        simp only [execLoopAux, he, if_false, hv, Bool.not_false, Bool.true_and, hlt,
          if_true]
        exact ih (attempt + 1) (by omega) (by omega)
          (fun n h1 h2 => hpre n (by omega) h2) hlast

/-- Claim C7: the execute step makes at most the configured number of
attempts; when every attempt up to the budget produces empty output the
branch reports no output after exactly the budgeted attempts and no
further attempt is made; and when the loop reaches the last attempt and
its output is non-empty, that result is used even if
execution-validation fails. -/
theorem c7_execute_retry_spec (env : ExecEnv) (m : Nat) (hm : 1 ≤ m) :
    ((runExecuteStep env m).attempts ≤ m) ∧
    ((∀ n, 1 ≤ n → n ≤ m → emptyOut (env.execResult n) = true) →
      runExecuteStep env m = .noOutput m) ∧
    ((∀ n, 1 ≤ n → n < m →
        emptyOut (env.execResult n) = true ∨ (env.validation n).valid = false) →
      emptyOut (env.execResult m) = false →
      runExecuteStep env m = .proceeded (env.execResult m) m) := by
  refine ⟨?_, ?_, ?_⟩
  · exact execLoopAux_attempts_le env m m 1 (by omega)
  · intro hempty
    exact execLoopAux_all_empty env m m 1 (by omega) hm hempty
  · intro hpre hlast
    exact execLoopAux_reach_last env m m 1 (by omega) hm hpre hlast

/-- Witness for c7_execute_retry_spec: with a retry budget of 2 and
every attempt empty, the step reports no output after exactly 2
attempts. -/
theorem c7_execute_retry_witness :
    runExecuteStep emptyExecEnv 2 = .noOutput 2 ∧
    (runExecuteStep emptyExecEnv 2).attempts ≤ 2 :=
  ⟨(c7_execute_retry_spec emptyExecEnv 2 (by decide)).2.1 (fun _ _ _ => rfl),
   (c7_execute_retry_spec emptyExecEnv 2 (by decide)).1⟩

/-- Claim C6: when round 1's evaluation passes, the debate engine
returns immediately with that round's cheatsheet and rounds = 1, and the
agent invocation trace contains exactly the two round-1 invocations —
no round-2 or later agent invocation is ever made, for any configured
round cap. -/
theorem c6_debate_round1_approval_stops (env : DebateEnv) (sc : String → StructResult)
    (maxRounds : Nat) (aRes bRes : AgentResult) (hm : 1 ≤ maxRounds)
    (hA : env.agentA 1 = .ok aRes) (hAr : aRes.rateLimited = false)
    (hB : env.agentB 1 = .ok bRes) (hBr : bRes.rateLimited = false)
    (hEval : (evaluate (combineDebate (aRes.output.getD "") (bRes.output.getD "")) sc
        (1 == maxRounds) (env.judge 1)).passed = true) :
    runDebate env sc maxRounds =
      ({ passed := true,
         cheatsheet := (evaluate (combineDebate (aRes.output.getD "") (bRes.output.getD ""))
           sc (1 == maxRounds) (env.judge 1)).cheatsheet,
         feedback := none, rounds := 1 },
       ["debate-r1-a", "debate-r1-b"]) := by
  obtain ⟨f, rfl⟩ : ∃ f, maxRounds = f + 1 := ⟨maxRounds - 1, by omega⟩
  have hlab1 : "debate-r" ++ toString (1 : Nat) ++ "-a" = "debate-r1-a" := rfl
  have hlab2 : "debate-r" ++ toString (1 : Nat) ++ "-b" = "debate-r1-b" := rfl
  have hloop : debateLoop env sc (f + 1) 1 (f + 1) "" [] =
      .approved (evaluate (combineDebate (aRes.output.getD "") (bRes.output.getD ""))
        sc (1 == f + 1) (env.judge 1)).cheatsheet 1 ["debate-r1-a", "debate-r1-b"] := by
    simp only [debateLoop, hA, hAr, hB, hBr, hlab1, hlab2, List.nil_append, hEval,
      if_true, Bool.false_eq_true, if_false, List.cons_append, List.singleton_append]
  unfold runDebate
  rw [hloop]

/-- Witness for c6_debate_round1_approval_stops: a concrete environment
whose judge answers APPROVED in round 1 under a 3-round cap stops after
round 1 with exactly the two round-1 agent invocations. -/
theorem c6_debate_round1_witness :
    runDebate approvingDebateEnv acceptingStructuralCheck 3 =
      ({ passed := true,
         cheatsheet := (evaluate (combineDebate "proposal text" "critique text")
           acceptingStructuralCheck (1 == 3) (approvingDebateEnv.judge 1)).cheatsheet,
         feedback := none, rounds := 1 },
       ["debate-r1-a", "debate-r1-b"]) :=
  c6_debate_round1_approval_stops approvingDebateEnv acceptingStructuralCheck 3
    { output := some "proposal text", rateLimited := false }
    { output := some "critique text", rateLimited := false }
    (by decide) rfl rfl rfl rfl (by decide)
